import Mathlib

/- Verification of the game feature engineering engine of this repository
   (src/data_processing/game_features.py, class GameFeatureEngineer, and the
   feature assembly loop of create_game_features).

   Embedding conventions:
   * A pandas DataFrame of games is a `List Game`; the prepared frame has a
     0..n-1 positional index, so `df.loc[i]` is positional lookup (`dfLoc`).
   * Dates are integers at day granularity: the pipeline parses a date-only
     column, so Timestamp subtraction followed by `.days` is exact integer
     subtraction.
   * Scores are integers; win percentages and score averages are exact
     rationals (the float arithmetic of the source is modelled exactly).
   * pandas `sort_values("date", ascending=False)` reverses an ascending
     argsort indexer (pandas `nargsort`), hence it is modelled as the reverse
     of a stable ascending sort (`List.insertionSort`, which is stable).
   * The try/except around the per-game loop of create_game_features is
     modelled with `Except`: a body that raises produces `.error`, and the
     except branch logs and continues, dropping only that row. -/

structure Game where
  id : ℕ
  date : ℤ
  home_team_id : ℕ
  visitor_team_id : ℕ
  home_team_score : ℤ
  visitor_team_score : ℤ
deriving DecidableEq

instance : Inhabited Game := ⟨⟨0, 0, 0, 0, 0, 0⟩⟩

/-- Positional row lookup `df.loc[i]` on the prepared range-indexed frame. -/
def dfLoc (df : List Game) (i : ℕ) : Game := df.getD i default

/-- The row mask `(df["home_team_id"] == t) | (df["visitor_team_id"] == t)`. -/
def involves (g : Game) (t : ℕ) : Bool := g.home_team_id == t || g.visitor_team_id == t

/-- pandas `DataFrame.tail n` / `Series.tail n` for a nonnegative `n`. -/
def tailPd (n : ℕ) (l : List α) : List α := l.drop (l.length - n)

/-- The Python slice `l[-n:]` for a nonnegative `n`.  For `n = 0` this is
    `l[0:]`, the whole list — unlike `tail 0`, which is empty. -/
def slicePy (n : ℕ) (l : List α) : List α := if n = 0 then l else l.drop (l.length - n)

/-- `np.mean` over an integer column, as exact rational arithmetic. -/
def qmean (l : List ℤ) : ℚ := (l.sum : ℚ) / l.length

/-- Comparison key of `sort_values("date")`. -/
def dateLe (a b : Game) : Prop := a.date ≤ b.date

instance : DecidableRel dateLe := fun a b => Int.decLe a.date b.date

instance : IsTotal Game dateLe := ⟨fun a b => Int.le_total a.date b.date⟩

instance : IsTrans Game dateLe := ⟨fun _ _ _ h h2 => le_trans h h2⟩

/-- A frame sorted ascending by the date column (what prepare_game_dataframe
    guarantees about the frame handed to the feature computations). -/
def SortedByDate (df : List Game) : Prop := List.Sorted dateLe df

/-- `sort_values("date")`: a stable ascending sort by date. -/
def sortAscByDate (l : List Game) : List Game := List.insertionSort dateLe l

/-- `sort_values("date", ascending=False)`: pandas computes an ascending
    argsort and reverses the indexer, so the result is the reverse of the
    stable ascending sort. -/
def sortDescByDate (l : List Game) : List Game := (sortAscByDate l).reverse

/-- The filter `((home == t) | (visitor == t)) & (date < d)` shared by the
    team-scoped aggregators. -/
def teamGames (df : List Game) (t : ℕ) (d : ℤ) : List Game :=
  df.filter (fun g => involves g t && decide (g.date < d))

structure FormStats where
  games_played : ℕ
  win_pct : ℚ
  avg_points_scored : ℚ
  avg_points_allowed : ℚ
  avg_point_differential : ℚ
deriving DecidableEq

/-- The all-zero FormStats record returned for a team with no prior games. -/
def zeroForm : FormStats := ⟨0, 0, 0, 0, 0⟩

/-- GameFeatureEngineer.calculate_team_form (naive DataFrame-filtering
    variant).  The pd.concat calls put the home rows of the window before the
    away rows in both score series; the two series share their index, so the
    elementwise comparison pairs scores game by game. -/
def calculate_team_form (df : List Game) (team_id : ℕ) (date : ℤ) (n_games : ℕ) : FormStats :=
  let team_games := tailPd n_games (teamGames df team_id date)
  if team_games.isEmpty then zeroForm else
  let homeG := team_games.filter (fun g => g.home_team_id == team_id)
  let awayG := team_games.filter (fun g => !(g.home_team_id == team_id))
  let team_scores := homeG.map (fun g => g.home_team_score) ++ awayG.map (fun g => g.visitor_team_score)
  let opp_scores := homeG.map (fun g => g.visitor_team_score) ++ awayG.map (fun g => g.home_team_score)
  let wins := ((team_scores.zip opp_scores).filter (fun p => decide (p.2 < p.1))).length
  ⟨team_games.length, (wins : ℚ) / team_games.length,
    qmean team_scores, qmean opp_scores, qmean team_scores - qmean opp_scores⟩

structure HeadToHeadStats where
  h2h_games : ℕ
  team1_wins : ℕ
  team2_wins : ℕ
  team1_win_pct : ℚ
deriving DecidableEq

/-- The head-to-head row mask of calculate_head_to_head. -/
def h2hCond (t1 t2 : ℕ) (d : ℤ) (g : Game) : Bool :=
  ((g.home_team_id == t1 && g.visitor_team_id == t2) ||
    (g.home_team_id == t2 && g.visitor_team_id == t1)) && decide (g.date < d)

/-- Row-wise `(team1_home & home_won) | (team1_away & ~home_won)`. -/
def team1Won (t1 : ℕ) (g : Game) : Bool :=
  (g.home_team_id == t1 && decide (g.visitor_team_score < g.home_team_score)) ||
    (!(g.home_team_id == t1) && !decide (g.visitor_team_score < g.home_team_score))

/-- GameFeatureEngineer.calculate_head_to_head (naive variant). -/
def calculate_head_to_head (df : List Game) (team1_id team2_id : ℕ) (before_date : ℤ)
    (n_games : ℕ) : HeadToHeadStats :=
  let h2h_games := tailPd n_games (df.filter (h2hCond team1_id team2_id before_date))
  if h2h_games.isEmpty then ⟨0, 0, 0, 0⟩ else
  let team1_wins := (h2h_games.filter (team1Won team1_id)).length
  ⟨h2h_games.length, team1_wins, h2h_games.length - team1_wins,
    (team1_wins : ℚ) / h2h_games.length⟩

/-- `prev_games["date"].max()`. -/
def maxDate : List Game → ℤ
  | [] => 0
  | g :: rest => rest.foldl (fun m x => max m x.date) g.date

/-- GameFeatureEngineer.calculate_rest_days (naive variant): 999 is the
    sentinel for "no previous game". -/
def calculate_rest_days (df : List Game) (team_id : ℕ) (game_date : ℤ) : ℤ :=
  let prev_games := teamGames df team_id game_date
  if prev_games.isEmpty then 999 else game_date - maxDate prev_games

/-- Row-wise win test for the streak computation: the home score column is
    compared when the team was home, the visitor score column otherwise. -/
def wonBy (t : ℕ) (g : Game) : Bool :=
  if g.home_team_id == t then decide (g.visitor_team_score < g.home_team_score)
  else decide (g.home_team_score < g.visitor_team_score)

/-- The streak loop: walk the outcomes, adding plus or minus one while the
    outcome equals the first (most recent) one, and stop at the first change. -/
def streakCount (first : Bool) : List Bool → ℤ
  | [] => 0
  | b :: rest => if b == first then (if first then 1 else -1) + streakCount first rest else 0

/-- GameFeatureEngineer.calculate_win_streak (naive variant). -/
def calculate_win_streak (df : List Game) (team_id : ℕ) (before_date : ℤ) : ℤ :=
  let team_games := sortDescByDate (teamGames df team_id before_date)
  if team_games.isEmpty then 0 else
  let results := team_games.map (wonBy team_id)
  match results with
  | [] => 0
  | first :: rest => streakCount first (first :: rest)

structure HomeAwaySplit where
  home_games : ℕ
  home_win_pct : ℚ
  away_games : ℕ
  away_win_pct : ℚ
deriving DecidableEq

/-- GameFeatureEngineer.calculate_home_away_splits (naive variant). -/
def calculate_home_away_splits (df : List Game) (team_id : ℕ) (before_date : ℤ)
    (n_games : ℕ) : HomeAwaySplit :=
  let home_games := tailPd n_games (df.filter (fun g => g.home_team_id == team_id && decide (g.date < before_date)))
  let home_wins := (home_games.filter (fun g => decide (g.visitor_team_score < g.home_team_score))).length
  let home_win_pct : ℚ := if 0 < home_games.length then (home_wins : ℚ) / home_games.length else 0
  let away_games := tailPd n_games (df.filter (fun g => g.visitor_team_id == team_id && decide (g.date < before_date)))
  let away_wins := (away_games.filter (fun g => decide (g.home_team_score < g.visitor_team_score))).length
  let away_win_pct : ℚ := if 0 < away_games.length then (away_wins : ℚ) / away_games.length else 0
  ⟨home_games.length, home_win_pct, away_games.length, away_win_pct⟩

/-- GameFeatureEngineer.is_back_to_back, defined from the naive rest days. -/
def is_back_to_back (df : List Game) (team_id : ℕ) (game_date : ℤ) : Bool :=
  calculate_rest_days df team_id game_date == 1

/-- GameFeatureEngineer._build_team_games_cache: "team_games" maps a team id to
    the sorted list of row indices of the games that team took part in; the
    dict lookup `.get(team_id, [])` yields [] for an unknown team, and so does
    the range filter, so the cache is modelled as a total function. -/
def build_team_games_cache (df : List Game) : ℕ → List ℕ :=
  fun t => (List.range df.length).filter (fun i => involves (dfLoc df i) t)

/-- GameFeatureEngineer._calculate_team_form_cached.  Beware the `[-n:]` slice:
    for n = 0 it keeps every prior game instead of none. -/
def calculate_team_form_cached (df : List Game) (team_id : ℕ) (date : ℤ)
    (cache : ℕ → List ℕ) (n_games : ℕ) : FormStats :=
  let relevant_games := slicePy n_games ((cache team_id).filter (fun i => decide ((dfLoc df i).date < date)))
  if relevant_games.isEmpty then zeroForm else
  let gs := relevant_games.map (dfLoc df)
  let team_scores := gs.map (fun g => if g.home_team_id == team_id then g.home_team_score else g.visitor_team_score)
  let opp_scores := gs.map (fun g => if g.home_team_id == team_id then g.visitor_team_score else g.home_team_score)
  let wins := ((team_scores.zip opp_scores).filter (fun p => decide (p.2 < p.1))).length
  ⟨relevant_games.length, (wins : ℚ) / relevant_games.length,
    qmean team_scores, qmean opp_scores, qmean team_scores - qmean opp_scores⟩

/-- GameFeatureEngineer._calculate_head_to_head_cached: the sorted intersection
    of the two teams index lists is the order-preserving filter of the first
    (both lists are increasing). -/
def calculate_head_to_head_cached (df : List Game) (team1_id team2_id : ℕ) (before_date : ℤ)
    (cache : ℕ → List ℕ) (n_games : ℕ) : HeadToHeadStats :=
  let common := (cache team1_id).filter (fun i => decide (i ∈ cache team2_id))
  let h2h_indices := slicePy n_games (common.filter (fun i => decide ((dfLoc df i).date < before_date)))
  if h2h_indices.isEmpty then ⟨0, 0, 0, 0⟩ else
  let team1_wins := ((h2h_indices.map (dfLoc df)).filter (team1Won team1_id)).length
  ⟨h2h_indices.length, team1_wins, h2h_indices.length - team1_wins,
    (team1_wins : ℚ) / h2h_indices.length⟩

/-- GameFeatureEngineer._calculate_rest_days_cached: takes the date of the last
    prior index (`prev_games[-1]`), not the maximal date. -/
def calculate_rest_days_cached (df : List Game) (team_id : ℕ) (game_date : ℤ)
    (cache : ℕ → List ℕ) : ℤ :=
  let prev_games := (cache team_id).filter (fun i => decide ((dfLoc df i).date < game_date))
  if prev_games.isEmpty then 999
  else game_date - (dfLoc df (prev_games.getLastD 0)).date

/-- GameFeatureEngineer._calculate_win_streak_cached: walks the prior indices
    in reverse index order. -/
def calculate_win_streak_cached (df : List Game) (team_id : ℕ) (before_date : ℤ)
    (cache : ℕ → List ℕ) : ℤ :=
  let relevant_games := (cache team_id).filter (fun i => decide ((dfLoc df i).date < before_date))
  if relevant_games.isEmpty then 0 else
  let results := relevant_games.reverse.map (fun i => wonBy team_id (dfLoc df i))
  match results with
  | [] => 0
  | first :: rest => streakCount first (first :: rest)

/-- GameFeatureEngineer._calculate_home_away_splits_cached. -/
def calculate_home_away_splits_cached (df : List Game) (team_id : ℕ) (before_date : ℤ)
    (cache : ℕ → List ℕ) (n_games : ℕ) : HomeAwaySplit :=
  let relevant_games := (cache team_id).filter (fun i => decide ((dfLoc df i).date < before_date))
  let home_games := slicePy n_games (relevant_games.filter (fun i => (dfLoc df i).home_team_id == team_id))
  let away_games := slicePy n_games (relevant_games.filter (fun i => (dfLoc df i).visitor_team_id == team_id))
  let home_wins := (home_games.filter (fun i => decide ((dfLoc df i).visitor_team_score < (dfLoc df i).home_team_score))).length
  let away_wins := (away_games.filter (fun i => decide ((dfLoc df i).home_team_score < (dfLoc df i).visitor_team_score))).length
  ⟨home_games.length, if home_games.isEmpty then 0 else (home_wins : ℚ) / home_games.length,
    away_games.length, if away_games.isEmpty then 0 else (away_wins : ℚ) / away_games.length⟩

inductive ValidationError
  | invalidEvent
deriving DecidableEq

/-- GameFeatureEngineer.prepare_game_dataframe: parses the date column and
    sorts ascending by date.  The function performs no validation and contains
    no raise path, so the only reachable outcome is ok; the Except result type
    records the failure mode which the specification claims and which the code
    does not implement. -/
def prepare_game_dataframe (games : List Game) : Except ValidationError (List Game) :=
  Except.ok (sortAscByDate games)

structure FeatureRow where
  game_id : ℕ
  date : ℤ
  home_team_id : ℕ
  away_team_id : ℕ
  home_win_pct : ℚ
  home_avg_points : ℚ
  home_avg_allowed : ℚ
  home_point_diff : ℚ
  away_win_pct : ℚ
  away_avg_points : ℚ
  away_avg_allowed : ℚ
  away_point_diff : ℚ
  h2h_games : ℕ
  home_h2h_win_pct : ℚ
  home_rest_days : ℤ
  away_rest_days : ℤ
  home_b2b : ℕ
  away_b2b : ℕ
  home_streak : ℤ
  away_streak : ℤ
  home_home_win_pct : ℚ
  away_away_win_pct : ℚ
  target : Option (ℕ × ℤ × ℤ)
deriving DecidableEq

/-- The body of the per-game loop of create_game_features: one feature dict,
    built from the cached aggregators with the default window of 10; the
    target triple (home_win, home_score, away_score) is attached only when
    include_future_target is set. -/
def game_feature_row (df : List Game) (cache : ℕ → List ℕ) (g : Game)
    (include_future_target : Bool) : FeatureRow :=
  let home_form := calculate_team_form_cached df g.home_team_id g.date cache 10
  let away_form := calculate_team_form_cached df g.visitor_team_id g.date cache 10
  let h2h := calculate_head_to_head_cached df g.home_team_id g.visitor_team_id g.date cache 10
  let home_rest := calculate_rest_days_cached df g.home_team_id g.date cache
  let away_rest := calculate_rest_days_cached df g.visitor_team_id g.date cache
  let home_streak := calculate_win_streak_cached df g.home_team_id g.date cache
  let away_streak := calculate_win_streak_cached df g.visitor_team_id g.date cache
  let home_splits := calculate_home_away_splits_cached df g.home_team_id g.date cache 10
  let away_splits := calculate_home_away_splits_cached df g.visitor_team_id g.date cache 10
  ⟨g.id, g.date, g.home_team_id, g.visitor_team_id,
    home_form.win_pct, home_form.avg_points_scored, home_form.avg_points_allowed,
    home_form.avg_point_differential,
    away_form.win_pct, away_form.avg_points_scored, away_form.avg_points_allowed,
    away_form.avg_point_differential,
    h2h.h2h_games, h2h.team1_win_pct,
    home_rest, away_rest,
    (if home_rest == 1 then 1 else 0), (if away_rest == 1 then 1 else 0),
    home_streak, away_streak,
    home_splits.home_win_pct, away_splits.away_win_pct,
    if include_future_target then
      some (if g.visitor_team_score < g.home_team_score then 1 else 0,
        g.home_team_score, g.visitor_team_score)
    else none⟩

/-- The per-game loop of create_game_features with the try/except made
    explicit: `step` is the body of the try block; when it raises (.error) the
    except branch logs the failure and continues, so exactly that row is
    dropped from the output. -/
def assemble_features (step : Game → Except String FeatureRow) (df : List Game) :
    List FeatureRow :=
  df.filterMap (fun g => (step g).toOption)

/-- GameFeatureEngineer.create_game_features: builds the cache once, then runs
    the per-game loop; on well-formed rows the body always returns normally. -/
def create_game_features (df : List Game) (include_future_target : Bool) : List FeatureRow :=
  let cache := build_team_games_cache df
  assemble_features (fun g => Except.ok (game_feature_row df cache g include_future_target)) df

/-- Modelled from the spec (section 4.4, Form Aggregator): the postcondition
    record over a window of games.  A game is a win exactly when the
    participant scored strictly more than the opponent, scored and allowed
    points are attributed by the side the participant played, win_pct is
    wins over games played, the averages are arithmetic means, and an empty
    window yields the all-zero record. -/
def formStatsSpec (t : ℕ) (w : List Game) : FormStats :=
  if w.isEmpty then zeroForm else
  ⟨w.length,
    ((w.filter (wonBy t)).length : ℚ) / w.length,
    qmean (w.map (fun g => if g.home_team_id == t then g.home_team_score else g.visitor_team_score)),
    qmean (w.map (fun g => if g.home_team_id == t then g.visitor_team_score else g.home_team_score)),
    qmean (w.map (fun g => if g.home_team_id == t then g.home_team_score else g.visitor_team_score)) -
      qmean (w.map (fun g => if g.home_team_id == t then g.visitor_team_score else g.home_team_score))⟩

/-- Modelled from the spec (section 4.5, Streak Aggregator): with the walked
    outcomes listed most recent first, the streak is plus or minus the length
    of the contiguous run of outcomes equal to the most recent one, and an
    empty walk yields 0. -/
def streakSpec : List Bool → ℤ
  | [] => 0
  | first :: rest =>
    (if first then 1 else -1) * (((first :: rest).takeWhile (fun b => b == first)).length : ℤ)

/- ===================== list infrastructure lemmas ===================== -/

theorem range_filter_map_getD (df : List Game) (p : Game → Bool) :
    ((List.range df.length).filter (fun i => p (dfLoc df i))).map (dfLoc df) = df.filter p := by
  induction df with
  | nil => rfl
  | cons a l ih =>
    have h1 : ∀ i : ℕ, dfLoc (a :: l) (i + 1) = dfLoc l i := by
      intro i; simp [dfLoc]
    rw [List.length_cons, List.range_succ_eq_map, List.filter_cons]
    have h2 : ((List.range l.length).map Nat.succ).filter (fun i => p (dfLoc (a :: l) i))
        = ((List.range l.length).filter (fun i => p (dfLoc l i))).map Nat.succ := by
      rw [List.filter_map]
      rfl
    have h3 : (((List.range l.length).filter (fun i => p (dfLoc l i))).map Nat.succ).map
          (dfLoc (a :: l))
        = ((List.range l.length).filter (fun i => p (dfLoc l i))).map (dfLoc l) := by
      rw [List.map_map]
      apply List.map_congr_left
      intro i _
      exact h1 i
    have h0 : dfLoc (a :: l) 0 = a := rfl
    by_cases hp : p a
    · simp only [h0, hp, if_pos, List.map_cons, h2, h3, ih, List.filter_cons, if_true]
    · simp only [h0, hp, List.map_cons, h2, h3, ih, List.filter_cons, if_false,
        Bool.false_eq_true]

theorem cache_filter_map (df : List Game) (t : ℕ) (d : ℤ) :
    ((build_team_games_cache df t).filter (fun i => decide ((dfLoc df i).date < d))).map (dfLoc df)
      = teamGames df t d := by
  unfold build_team_games_cache teamGames
  rw [List.filter_filter]
  have hcomm : (List.range df.length).filter
        (fun i => decide ((dfLoc df i).date < d) && involves (dfLoc df i) t)
      = (List.range df.length).filter
        (fun i => involves (dfLoc df i) t && decide ((dfLoc df i).date < d)) :=
    List.filter_congr (fun i _ => Bool.and_comm _ _)
  rw [hcomm]
  exact range_filter_map_getD df (fun g => involves g t && decide (g.date < d))

theorem slicePy_eq_tailPd {n : ℕ} (hn : n ≠ 0) (l : List α) : slicePy n l = tailPd n l := by
  simp [slicePy, tailPd, hn]

theorem tailPd_map (f : α → β) (n : ℕ) (l : List α) :
    tailPd n (l.map f) = (tailPd n l).map f := by
  simp [tailPd, List.map_drop]

theorem slicePy_map (f : α → β) (n : ℕ) (l : List α) :
    slicePy n (l.map f) = (slicePy n l).map f := by
  by_cases hn : n = 0
  · simp [slicePy, hn]
  · rw [slicePy_eq_tailPd hn, slicePy_eq_tailPd hn, tailPd_map]

theorem tailPd_length (n : ℕ) (l : List α) : (tailPd n l).length = l.length - (l.length - n) := by
  simp [tailPd]

theorem tailPd_subset (n : ℕ) (l : List α) : ∀ a ∈ tailPd n l, a ∈ l := by
  intro a ha
  exact List.drop_subset _ l ha

theorem slicePy_subset (n : ℕ) (l : List α) : ∀ a ∈ slicePy n l, a ∈ l := by
  intro a ha
  by_cases hn : n = 0
  · simpa [slicePy, hn] using ha
  · exact tailPd_subset n l a (by rwa [slicePy_eq_tailPd hn] at ha)

theorem length_filter_not_add (l : List α) (p : α → Bool) :
    (l.filter p).length + (l.filter (fun a => !p a)).length = l.length := by
  induction l with
  | nil => rfl
  | cons a t ih =>
    by_cases h : p a <;> simp [List.filter_cons, h] <;> omega

theorem sum_map_filter_not_add (l : List α) (p : α → Bool) (f g : α → ℤ) :
    ((l.filter p).map f).sum + ((l.filter (fun a => !p a)).map g).sum
      = (l.map (fun a => if p a then f a else g a)).sum := by
  induction l with
  | nil => rfl
  | cons a t ih =>
    by_cases h : p a <;> simp [List.filter_cons, h] <;> omega

theorem length_filter_and_not_add (l : List α) (q p : α → Bool) :
    (l.filter (fun a => q a && p a)).length + (l.filter (fun a => q a && !p a)).length
      = (l.filter q).length := by
  induction l with
  | nil => rfl
  | cons a t ih =>
    by_cases hq : q a <;> by_cases hp : p a <;> simp [List.filter_cons, hq, hp] <;> omega

theorem length_filter_of_comp (l : List α) (p q : α → Bool)
    (h : ∀ a ∈ l, q a = !p a) :
    (l.filter q).length + (l.filter p).length = l.length := by
  induction l with
  | nil => rfl
  | cons a t ih =>
    have ha := h a (List.mem_cons_self a t)
    have ht : ∀ a ∈ t, q a = !p a := fun x hx => h x (List.mem_cons_of_mem a hx)
    have iht := ih ht
    by_cases hp : p a <;>
      simp [List.filter_cons, hp, ha] <;> omega

/- ============ characterization of the form aggregators ============ -/

theorem naive_scores_length (w : List Game) (t : ℕ) (f1 f2 : Game → ℤ) :
    ((w.filter (fun g => g.home_team_id == t)).map f1
      ++ (w.filter (fun g => !(g.home_team_id == t))).map f2).length = w.length := by
  rw [List.length_append, List.length_map, List.length_map]
  exact length_filter_not_add w (fun g => g.home_team_id == t)

theorem naive_scores_sum (w : List Game) (t : ℕ) (f1 f2 : Game → ℤ) :
    ((w.filter (fun g => g.home_team_id == t)).map f1
        ++ (w.filter (fun g => !(g.home_team_id == t))).map f2).sum
      = (w.map (fun g => if g.home_team_id == t then f1 g else f2 g)).sum := by
  rw [List.sum_append]
  exact sum_map_filter_not_add w (fun g => g.home_team_id == t) f1 f2

theorem naive_wins_eq (w : List Game) (t : ℕ) :
    ((((w.filter (fun g => g.home_team_id == t)).map (fun g => g.home_team_score)
        ++ (w.filter (fun g => !(g.home_team_id == t))).map (fun g => g.visitor_team_score)).zip
      ((w.filter (fun g => g.home_team_id == t)).map (fun g => g.visitor_team_score)
        ++ (w.filter (fun g => !(g.home_team_id == t))).map (fun g => g.home_team_score))).filter
        (fun p => decide (p.2 < p.1))).length
      = (w.filter (wonBy t)).length := by
  set homeG := w.filter (fun g => g.home_team_id == t) with hh
  set awayG := w.filter (fun g => !(g.home_team_id == t)) with ha
  rw [List.zip_append (by rw [List.length_map, List.length_map])]
  rw [List.zip_map', List.zip_map', List.filter_append, List.length_append]
  rw [List.filter_map, List.filter_map, List.length_map, List.length_map]
  have hhome : homeG.filter
        ((fun p : ℤ × ℤ => decide (p.2 < p.1)) ∘ fun g => (g.home_team_score, g.visitor_team_score))
      = homeG.filter (wonBy t) := by
    apply List.filter_congr
    intro g hg
    rw [hh] at hg
    have : (g.home_team_id == t) = true := (List.mem_filter.mp hg).2
    simp [Function.comp, wonBy, this]
  have haway : awayG.filter
        ((fun p : ℤ × ℤ => decide (p.2 < p.1)) ∘ fun g => (g.visitor_team_score, g.home_team_score))
      = awayG.filter (wonBy t) := by
    apply List.filter_congr
    intro g hg
    rw [ha] at hg
    have hmem : (!(g.home_team_id == t)) = true := (List.mem_filter.mp hg).2
    have hnot : (g.home_team_id == t) = false := by
      cases hv : (g.home_team_id == t) <;> simp [hv] at hmem ⊢
    simp [Function.comp, wonBy, hnot]
  rw [hhome, haway, hh, ha]
  rw [List.filter_filter, List.filter_filter]
  exact length_filter_and_not_add w (wonBy t) (fun g => g.home_team_id == t)

theorem form_naive_eq (df : List Game) (t : ℕ) (d : ℤ) (n : ℕ) :
    calculate_team_form df t d n = formStatsSpec t (tailPd n (teamGames df t d)) := by
  unfold calculate_team_form formStatsSpec
  set w := tailPd n (teamGames df t d) with hw
  by_cases hemp : w.isEmpty
  · simp only [hemp, if_true]
  · simp only [hemp, if_false, Bool.false_eq_true]
    have hwins := naive_wins_eq w t
    have hts_sum := naive_scores_sum w t (fun g => g.home_team_score) (fun g => g.visitor_team_score)
    have hos_sum := naive_scores_sum w t (fun g => g.visitor_team_score) (fun g => g.home_team_score)
    have hts_len := naive_scores_length w t (fun g => g.home_team_score) (fun g => g.visitor_team_score)
    have hos_len := naive_scores_length w t (fun g => g.visitor_team_score) (fun g => g.home_team_score)
    have hqts : qmean ((w.filter (fun g => g.home_team_id == t)).map (fun g => g.home_team_score)
          ++ (w.filter (fun g => !(g.home_team_id == t))).map (fun g => g.visitor_team_score))
        = qmean (w.map (fun g => if g.home_team_id == t then g.home_team_score else g.visitor_team_score)) := by
      unfold qmean
      rw [hts_sum, hts_len, List.length_map]
    have hqos : qmean ((w.filter (fun g => g.home_team_id == t)).map (fun g => g.visitor_team_score)
          ++ (w.filter (fun g => !(g.home_team_id == t))).map (fun g => g.home_team_score))
        = qmean (w.map (fun g => if g.home_team_id == t then g.visitor_team_score else g.home_team_score)) := by
      unfold qmean
      rw [hos_sum, hos_len, List.length_map]
    rw [hwins, hqts, hqos]

theorem cached_wins_eq (w : List Game) (t : ℕ) :
    (((w.map (fun g => if g.home_team_id == t then g.home_team_score else g.visitor_team_score)).zip
        (w.map (fun g => if g.home_team_id == t then g.visitor_team_score else g.home_team_score))).filter
        (fun p => decide (p.2 < p.1))).length
      = (w.filter (wonBy t)).length := by
  rw [List.zip_map', List.filter_map, List.length_map]
  congr 1
  apply List.filter_congr
  intro g _
  by_cases h : (g.home_team_id == t) = true <;> simp [Function.comp, wonBy, h]

theorem form_cached_eq (df : List Game) (t : ℕ) (d : ℤ) (n : ℕ) :
    calculate_team_form_cached df t d (build_team_games_cache df) n
      = formStatsSpec t (slicePy n (teamGames df t d)) := by
  have hgs : (slicePy n ((build_team_games_cache df t).filter
        (fun i => decide ((dfLoc df i).date < d)))).map (dfLoc df)
      = slicePy n (teamGames df t d) := by
    rw [← cache_filter_map df t d, ← slicePy_map]
  unfold calculate_team_form_cached formStatsSpec
  dsimp only
  rw [← hgs]
  set gs := slicePy n ((build_team_games_cache df t).filter
      (fun i => decide ((dfLoc df i).date < d))) with hidx
  have hlen : (gs.map (dfLoc df)).length = gs.length := List.length_map gs (dfLoc df)
  have hempiff : (gs.map (dfLoc df)).isEmpty = gs.isEmpty := by
    cases gs <;> simp
  rw [hempiff]
  by_cases hemp : gs.isEmpty
  · simp only [hemp, if_true]
  · simp only [hemp, if_false, Bool.false_eq_true]
    rw [cached_wins_eq (gs.map (dfLoc df)) t, hlen]

/- ============ characterization of the head-to-head aggregators ============ -/

/-- Common body of the two head-to-head variants over the selected window. -/
def h2hOfWindow (t1 : ℕ) (w : List Game) : HeadToHeadStats :=
  if w.isEmpty then ⟨0, 0, 0, 0⟩ else
  ⟨w.length, (w.filter (team1Won t1)).length,
    w.length - (w.filter (team1Won t1)).length,
    ((w.filter (team1Won t1)).length : ℚ) / w.length⟩

theorem h2h_naive_eq (df : List Game) (t1 t2 : ℕ) (d : ℤ) (n : ℕ) :
    calculate_head_to_head df t1 t2 d n
      = h2hOfWindow t1 (tailPd n (df.filter (h2hCond t1 t2 d))) := rfl

theorem h2h_cached_indices (df : List Game) (t1 t2 : ℕ) (d : ℤ) :
    ((((build_team_games_cache df t1).filter
          (fun i => decide (i ∈ build_team_games_cache df t2))).filter
        (fun i => decide ((dfLoc df i).date < d))).map (dfLoc df))
      = df.filter (fun g => involves g t1 && involves g t2 && decide (g.date < d)) := by
  have hstep : ((build_team_games_cache df t1).filter
        (fun i => decide (i ∈ build_team_games_cache df t2))).filter
        (fun i => decide ((dfLoc df i).date < d))
      = (List.range df.length).filter
        (fun i => (fun g => involves g t1 && involves g t2 && decide (g.date < d)) (dfLoc df i)) := by
    unfold build_team_games_cache
    rw [List.filter_filter, List.filter_filter]
    apply List.filter_congr
    intro i hi
    have hlt : i < df.length := List.mem_range.mp hi
    have hmem : decide (i ∈ (List.range df.length).filter (fun j => involves (dfLoc df j) t2))
        = involves (dfLoc df i) t2 := by
      by_cases h2 : involves (dfLoc df i) t2 = true
      · simp [List.mem_filter, List.mem_range, hlt, h2]
      · simp only [Bool.not_eq_true] at h2
        simp [List.mem_filter, List.mem_range, hlt, h2]
    rw [hmem]
    cases h1 : involves (dfLoc df i) t1 <;> cases h2 : involves (dfLoc df i) t2 <;>
      cases h3 : decide ((dfLoc df i).date < d) <;> simp [h1, h2, h3]
  rw [hstep]
  exact range_filter_map_getD df (fun g => involves g t1 && involves g t2 && decide (g.date < d))

theorem h2h_cached_eq (df : List Game) (t1 t2 : ℕ) (d : ℤ) (n : ℕ) :
    calculate_head_to_head_cached df t1 t2 d (build_team_games_cache df) n
      = h2hOfWindow t1 (slicePy n (df.filter
          (fun g => involves g t1 && involves g t2 && decide (g.date < d)))) := by
  have hgs : (slicePy n (((build_team_games_cache df t1).filter
          (fun i => decide (i ∈ build_team_games_cache df t2))).filter
        (fun i => decide ((dfLoc df i).date < d)))).map (dfLoc df)
      = slicePy n (df.filter (fun g => involves g t1 && involves g t2 && decide (g.date < d))) := by
    rw [← h2h_cached_indices df t1 t2 d, ← slicePy_map]
  unfold calculate_head_to_head_cached h2hOfWindow
  dsimp only
  rw [← hgs]
  set gs := slicePy n (((build_team_games_cache df t1).filter
      (fun i => decide (i ∈ build_team_games_cache df t2))).filter
    (fun i => decide ((dfLoc df i).date < d))) with hidx
  have hlen : (gs.map (dfLoc df)).length = gs.length := List.length_map gs (dfLoc df)
  have hempiff : (gs.map (dfLoc df)).isEmpty = gs.isEmpty := by
    cases gs <;> simp
  rw [hempiff]
  by_cases hemp : gs.isEmpty
  · simp only [hemp, if_true]
  · simp only [hemp, if_false, Bool.false_eq_true]
    rw [hlen]

/- ============ rest days: characterization and max-vs-last lemmas ============ -/

theorem getLastD_cons_cons (a b : α) (t : List α) (d : α) :
    (a :: b :: t).getLastD d = (b :: t).getLastD d := by
  simp [List.getLastD_eq_getLast?]

theorem getLastD_mem (l : List α) (d : α) (h : l ≠ []) : l.getLastD d ∈ l := by
  induction l with
  | nil => exact absurd rfl h
  | cons a t ih =>
    cases t with
    | nil => simp
    | cons b u =>
      rw [getLastD_cons_cons]
      exact List.mem_cons_of_mem a (ih (by simp))

theorem getLastD_map_of_ne_nil (f : α → β) (l : List α) (d1 : β) (d2 : α) (h : l ≠ []) :
    (l.map f).getLastD d1 = f (l.getLastD d2) := by
  induction l with
  | nil => exact absurd rfl h
  | cons a t ih =>
    cases t with
    | nil => rfl
    | cons b u =>
      simp only [List.map_cons]
      rw [getLastD_cons_cons, getLastD_cons_cons]
      have := ih (by simp)
      simpa using this

theorem foldl_maxdate_init (l : List Game) (a b : ℤ) :
    l.foldl (fun m x => max m x.date) (max a b) = max a (l.foldl (fun m x => max m x.date) b) := by
  induction l generalizing b with
  | nil => simp
  | cons c t ih =>
    simp only [List.foldl_cons]
    rw [max_assoc, ih]

theorem maxDate_cons_cons (g h : Game) (t : List Game) :
    maxDate (g :: h :: t) = max g.date (maxDate (h :: t)) := by
  unfold maxDate
  simp only [List.foldl_cons]
  exact foldl_maxdate_init t g.date h.date

theorem maxDate_sorted_getLast (l : List Game) (hs : List.Sorted dateLe l) (hne : l ≠ []) :
    maxDate l = (l.getLastD default).date := by
  induction l with
  | nil => exact absurd rfl hne
  | cons g rest ih =>
    cases rest with
    | nil => rfl
    | cons h t =>
      rw [maxDate_cons_cons, getLastD_cons_cons, ih hs.of_cons (by simp)]
      have hmem : (h :: t).getLastD default ∈ h :: t := getLastD_mem _ _ (by simp)
      have hgl : dateLe g ((h :: t).getLastD default) :=
        (List.pairwise_cons.mp hs).1 _ hmem
      exact max_eq_right hgl

theorem rest_cached_eq (df : List Game) (t : ℕ) (d : ℤ) :
    calculate_rest_days_cached df t d (build_team_games_cache df)
      = (if (teamGames df t d).isEmpty then 999
          else d - ((teamGames df t d).getLastD default).date) := by
  unfold calculate_rest_days_cached
  dsimp only
  set idxs := (build_team_games_cache df t).filter (fun i => decide ((dfLoc df i).date < d)) with hidx
  have hmap : idxs.map (dfLoc df) = teamGames df t d := cache_filter_map df t d
  have hempiff : (teamGames df t d).isEmpty = idxs.isEmpty := by
    rw [← hmap]; cases idxs <;> simp
  rw [hempiff]
  by_cases hemp : idxs.isEmpty
  · simp only [hemp, if_true]
  · simp only [hemp, if_false, Bool.false_eq_true]
    have hne : idxs ≠ [] := by
      intro h
      rw [h] at hemp
      simp at hemp
    rw [← hmap, getLastD_map_of_ne_nil (dfLoc df) idxs default 0 hne]

/- ============ streak: characterization lemmas ============ -/

theorem streakCount_eq_spec (first : Bool) (l : List Bool) :
    streakCount first l
      = (if first then 1 else -1) * ((l.takeWhile (fun b => b == first)).length : ℤ) := by
  induction l with
  | nil => simp [streakCount]
  | cons b t ih =>
    by_cases h : (b == first) = true
    · simp only [streakCount, h, if_true, List.takeWhile_cons, List.length_cons, ih]
      cases first <;> simp <;> ring
    · simp only [streakCount, h, List.takeWhile_cons, Bool.false_eq_true, if_false]
      simp [h]

theorem streak_naive_eq (df : List Game) (t : ℕ) (d : ℤ) :
    calculate_win_streak df t d
      = streakSpec ((sortDescByDate (teamGames df t d)).map (wonBy t)) := by
  unfold calculate_win_streak streakSpec
  dsimp only
  cases htg : sortDescByDate (teamGames df t d) with
  | nil => simp
  | cons g rest =>
    simp only [List.isEmpty_cons, Bool.false_eq_true, if_false, List.map_cons]
    rw [streakCount_eq_spec]

theorem streak_cached_eq (df : List Game) (t : ℕ) (d : ℤ) :
    calculate_win_streak_cached df t d (build_team_games_cache df)
      = streakSpec (((teamGames df t d).reverse).map (wonBy t)) := by
  unfold calculate_win_streak_cached
  dsimp only
  set idxs := (build_team_games_cache df t).filter (fun i => decide ((dfLoc df i).date < d)) with hidx
  have hmap : idxs.map (dfLoc df) = teamGames df t d := cache_filter_map df t d
  have hres : idxs.reverse.map (fun i => wonBy t (dfLoc df i))
      = ((teamGames df t d).reverse).map (wonBy t) := by
    rw [← hmap, ← List.map_reverse, List.map_map]
    rfl
  rw [hres]
  have hempiff : idxs.isEmpty = (((teamGames df t d).reverse).map (wonBy t)).isEmpty := by
    rw [← hmap]
    cases idxs <;> simp
  by_cases hemp : idxs.isEmpty
  · rw [hemp] at hempiff
    cases hw : ((teamGames df t d).reverse).map (wonBy t) with
    | nil => simp [hemp, streakSpec]
    | cons b u => rw [hw] at hempiff; simp at hempiff
  · simp only [hemp, Bool.false_eq_true, if_false]
    cases hw : ((teamGames df t d).reverse).map (wonBy t) with
    | nil =>
      rw [hw] at hempiff
      simp [hemp] at hempiff
    | cons b u =>
      simp only [streakSpec]
      rw [streakCount_eq_spec]

/- ============ home/away splits: characterization lemmas ============ -/

/-- Common shape of the two splits variants over the two selected windows. -/
def splitsOfWindows (hw aw : List Game) : HomeAwaySplit :=
  ⟨hw.length,
    if 0 < hw.length
      then ((hw.filter (fun g => decide (g.visitor_team_score < g.home_team_score))).length : ℚ) / hw.length
      else 0,
    aw.length,
    if 0 < aw.length
      then ((aw.filter (fun g => decide (g.home_team_score < g.visitor_team_score))).length : ℚ) / aw.length
      else 0⟩

theorem splits_naive_eq (df : List Game) (t : ℕ) (d : ℤ) (n : ℕ) :
    calculate_home_away_splits df t d n
      = splitsOfWindows
          (tailPd n (df.filter (fun g => g.home_team_id == t && decide (g.date < d))))
          (tailPd n (df.filter (fun g => g.visitor_team_id == t && decide (g.date < d)))) := rfl

theorem splits_cached_home_indices (df : List Game) (t : ℕ) (d : ℤ) :
    ((((build_team_games_cache df t).filter (fun i => decide ((dfLoc df i).date < d))).filter
        (fun i => (dfLoc df i).home_team_id == t)).map (dfLoc df))
      = df.filter (fun g => g.home_team_id == t && decide (g.date < d)) := by
  have hstep : (((build_team_games_cache df t).filter
        (fun i => decide ((dfLoc df i).date < d))).filter
        (fun i => (dfLoc df i).home_team_id == t))
      = (List.range df.length).filter
        (fun i => (fun g => g.home_team_id == t && decide (g.date < d)) (dfLoc df i)) := by
    unfold build_team_games_cache
    rw [List.filter_filter, List.filter_filter]
    apply List.filter_congr
    intro i _
    cases h1 : (dfLoc df i).home_team_id == t <;>
      cases h2 : (dfLoc df i).visitor_team_id == t <;>
      cases h3 : decide ((dfLoc df i).date < d) <;>
      simp [involves, h1, h2, h3]
  rw [hstep]
  exact range_filter_map_getD df (fun g => g.home_team_id == t && decide (g.date < d))

theorem splits_cached_away_indices (df : List Game) (t : ℕ) (d : ℤ) :
    ((((build_team_games_cache df t).filter (fun i => decide ((dfLoc df i).date < d))).filter
        (fun i => (dfLoc df i).visitor_team_id == t)).map (dfLoc df))
      = df.filter (fun g => g.visitor_team_id == t && decide (g.date < d)) := by
  have hstep : (((build_team_games_cache df t).filter
        (fun i => decide ((dfLoc df i).date < d))).filter
        (fun i => (dfLoc df i).visitor_team_id == t))
      = (List.range df.length).filter
        (fun i => (fun g => g.visitor_team_id == t && decide (g.date < d)) (dfLoc df i)) := by
    unfold build_team_games_cache
    rw [List.filter_filter, List.filter_filter]
    apply List.filter_congr
    intro i _
    cases h1 : (dfLoc df i).home_team_id == t <;>
      cases h2 : (dfLoc df i).visitor_team_id == t <;>
      cases h3 : decide ((dfLoc df i).date < d) <;>
      simp [involves, h1, h2, h3]
  rw [hstep]
  exact range_filter_map_getD df (fun g => g.visitor_team_id == t && decide (g.date < d))

theorem guard_flip (l : List ℕ) (x : ℚ) :
    (if l.isEmpty then (0 : ℚ) else x) = (if 0 < l.length then x else 0) := by
  cases l <;> simp

theorem length_filter_comp_map (l : List ℕ) (f : ℕ → Game) (p : Game → Bool) :
    (l.filter (fun i => p (f i))).length = ((l.map f).filter p).length := by
  rw [List.filter_map, List.length_map]
  rfl

theorem splits_cached_eq (df : List Game) (t : ℕ) (d : ℤ) (n : ℕ) :
    calculate_home_away_splits_cached df t d (build_team_games_cache df) n
      = splitsOfWindows
          (slicePy n (df.filter (fun g => g.home_team_id == t && decide (g.date < d))))
          (slicePy n (df.filter (fun g => g.visitor_team_id == t && decide (g.date < d)))) := by
  have hhome : (slicePy n (((build_team_games_cache df t).filter
          (fun i => decide ((dfLoc df i).date < d))).filter
        (fun i => (dfLoc df i).home_team_id == t))).map (dfLoc df)
      = slicePy n (df.filter (fun g => g.home_team_id == t && decide (g.date < d))) := by
    rw [← splits_cached_home_indices df t d, ← slicePy_map]
  have haway : (slicePy n (((build_team_games_cache df t).filter
          (fun i => decide ((dfLoc df i).date < d))).filter
        (fun i => (dfLoc df i).visitor_team_id == t))).map (dfLoc df)
      = slicePy n (df.filter (fun g => g.visitor_team_id == t && decide (g.date < d))) := by
    rw [← splits_cached_away_indices df t d, ← slicePy_map]
  unfold calculate_home_away_splits_cached splitsOfWindows
  dsimp only
  rw [← hhome, ← haway]
  set idxH := slicePy n (((build_team_games_cache df t).filter
      (fun i => decide ((dfLoc df i).date < d))).filter
    (fun i => (dfLoc df i).home_team_id == t)) with hiH
  set idxA := slicePy n (((build_team_games_cache df t).filter
      (fun i => decide ((dfLoc df i).date < d))).filter
    (fun i => (dfLoc df i).visitor_team_id == t)) with hiA
  rw [List.length_map, List.length_map]
  rw [← length_filter_comp_map idxH (dfLoc df)
      (fun g => decide (g.visitor_team_score < g.home_team_score))]
  rw [← length_filter_comp_map idxA (dfLoc df)
      (fun g => decide (g.home_team_score < g.visitor_team_score))]
  rw [guard_flip idxH, guard_flip idxA]

/- ============ sortedness helpers ============ -/

theorem sorted_teamGames (df : List Game) (t : ℕ) (d : ℤ) (hs : SortedByDate df) :
    List.Sorted dateLe (teamGames df t d) :=
  List.Sorted.filter _ hs

theorem sortAsc_of_sorted {l : List Game} (hs : List.Sorted dateLe l) :
    sortAscByDate l = l :=
  List.Sorted.insertionSort_eq hs

theorem sortDesc_of_sorted {l : List Game} (hs : List.Sorted dateLe l) :
    sortDescByDate l = l.reverse := by
  unfold sortDescByDate
  rw [sortAsc_of_sorted hs]

/- ============ the no-leakage filter absorption ============ -/

theorem filter_date_absorb (df : List Game) (p : Game → Bool) (d : ℤ) :
    (df.filter (fun g => decide (g.date < d))).filter (fun g => p g && decide (g.date < d))
      = df.filter (fun g => p g && decide (g.date < d)) := by
  rw [List.filter_filter]
  apply List.filter_congr
  intro g _
  cases hp : p g <;> cases hd : decide (g.date < d) <;> simp [hp, hd]

theorem teamGames_noleak (df : List Game) (t : ℕ) (d : ℤ) :
    teamGames (df.filter (fun g => decide (g.date < d))) t d = teamGames df t d :=
  filter_date_absorb df (fun g => involves g t) d

theorem h2h_filter_noleak (df : List Game) (t1 t2 : ℕ) (d : ℤ) :
    (df.filter (fun g => decide (g.date < d))).filter (h2hCond t1 t2 d)
      = df.filter (h2hCond t1 t2 d) :=
  filter_date_absorb df
    (fun g => (g.home_team_id == t1 && g.visitor_team_id == t2)
      || (g.home_team_id == t2 && g.visitor_team_id == t1)) d

theorem h2h_pair_filter_noleak (df : List Game) (t1 t2 : ℕ) (d : ℤ) :
    (df.filter (fun g => decide (g.date < d))).filter
        (fun g => involves g t1 && involves g t2 && decide (g.date < d))
      = df.filter (fun g => involves g t1 && involves g t2 && decide (g.date < d)) :=
  filter_date_absorb df (fun g => involves g t1 && involves g t2) d

theorem home_filter_noleak (df : List Game) (t : ℕ) (d : ℤ) :
    (df.filter (fun g => decide (g.date < d))).filter
        (fun g => g.home_team_id == t && decide (g.date < d))
      = df.filter (fun g => g.home_team_id == t && decide (g.date < d)) :=
  filter_date_absorb df (fun g => g.home_team_id == t) d

theorem away_filter_noleak (df : List Game) (t : ℕ) (d : ℤ) :
    (df.filter (fun g => decide (g.date < d))).filter
        (fun g => g.visitor_team_id == t && decide (g.date < d))
      = df.filter (fun g => g.visitor_team_id == t && decide (g.date < d)) :=
  filter_date_absorb df (fun g => g.visitor_team_id == t) d

/-- C1.  No-look-ahead leakage: restricting the frame to the events strictly
    before the cutoff changes no aggregator result, for team form, head to
    head, rest days, win streak and home/away splits, in both the naive and
    the cached variants; hence an event whose date is at or after the cutoff
    never influences any returned value. -/
theorem no_leakage_all_variants (df : List Game) (t t1 t2 : ℕ) (d : ℤ) (n : ℕ) :
    calculate_team_form (df.filter (fun g => decide (g.date < d))) t d n
        = calculate_team_form df t d n
    ∧ calculate_team_form_cached (df.filter (fun g => decide (g.date < d))) t d
          (build_team_games_cache (df.filter (fun g => decide (g.date < d)))) n
        = calculate_team_form_cached df t d (build_team_games_cache df) n
    ∧ calculate_head_to_head (df.filter (fun g => decide (g.date < d))) t1 t2 d n
        = calculate_head_to_head df t1 t2 d n
    ∧ calculate_head_to_head_cached (df.filter (fun g => decide (g.date < d))) t1 t2 d
          (build_team_games_cache (df.filter (fun g => decide (g.date < d)))) n
        = calculate_head_to_head_cached df t1 t2 d (build_team_games_cache df) n
    ∧ calculate_rest_days (df.filter (fun g => decide (g.date < d))) t d
        = calculate_rest_days df t d
    ∧ calculate_rest_days_cached (df.filter (fun g => decide (g.date < d))) t d
          (build_team_games_cache (df.filter (fun g => decide (g.date < d))))
        = calculate_rest_days_cached df t d (build_team_games_cache df)
    ∧ calculate_win_streak (df.filter (fun g => decide (g.date < d))) t d
        = calculate_win_streak df t d
    ∧ calculate_win_streak_cached (df.filter (fun g => decide (g.date < d))) t d
          (build_team_games_cache (df.filter (fun g => decide (g.date < d))))
        = calculate_win_streak_cached df t d (build_team_games_cache df)
    ∧ calculate_home_away_splits (df.filter (fun g => decide (g.date < d))) t d n
        = calculate_home_away_splits df t d n
    ∧ calculate_home_away_splits_cached (df.filter (fun g => decide (g.date < d))) t d
          (build_team_games_cache (df.filter (fun g => decide (g.date < d)))) n
        = calculate_home_away_splits_cached df t d (build_team_games_cache df) n := by
  refine ⟨?_, ?_, ?_, ?_, ?_, ?_, ?_, ?_, ?_, ?_⟩
  · rw [form_naive_eq, form_naive_eq, teamGames_noleak]
  · rw [form_cached_eq, form_cached_eq, teamGames_noleak]
  · rw [h2h_naive_eq, h2h_naive_eq, h2h_filter_noleak]
  · rw [h2h_cached_eq, h2h_cached_eq, h2h_pair_filter_noleak]
  · unfold calculate_rest_days
    rw [teamGames_noleak]
  · rw [rest_cached_eq, rest_cached_eq, teamGames_noleak]
  · rw [streak_naive_eq, streak_naive_eq, teamGames_noleak]
  · rw [streak_cached_eq, streak_cached_eq, teamGames_noleak]
  · rw [splits_naive_eq, splits_naive_eq, home_filter_noleak, away_filter_noleak]
  · rw [splits_cached_eq, splits_cached_eq, home_filter_noleak, away_filter_noleak]

/- ============ C2, C3: assembler emission and store building ============ -/

/-- A single game between teams 10 and 20 on day 0; both teams are cold-start
    participants with zero strictly-earlier games. -/
def gCold : Game := ⟨1, 0, 10, 20, 100, 90⟩

def dfCold : List Game := [gCold]

/-- C2 counterexample.  create_game_features emits a FeatureRecord for the
    lone game of dfCold although its home team (10) has zero games strictly
    before the cutoff (the event date, day 0); with any threshold
    min_history_games of at least 1 the claimed skipping would forbid every
    output record, so the claim fails on the code: no skipping exists in
    create_game_features. -/
theorem assembler_emits_cold_start_record :
    (create_game_features dfCold true).length = 1
      ∧ (teamGames dfCold 10 0).length = 0 ∧ (teamGames dfCold 20 0).length = 0 := by
  refine ⟨?_, by decide, by decide⟩
  rfl

/-- C2 amended.  create_game_features performs no minimum-history skipping:
    it emits exactly one FeatureRecord per input event, in input order,
    cold-start events included (their features carry zero/sentinel values);
    there is no min_history_games parameter in this assembler. -/
theorem assembler_emits_row_per_game (df : List Game) (tgt : Bool) :
    create_game_features df tgt
      = df.map (fun g => game_feature_row df (build_team_games_cache df) g tgt) := by
  unfold create_game_features assemble_features
  exact congrFun
    (List.filterMap_eq_map (fun g => game_feature_row df (build_team_games_cache df) g tgt)) df

/-- An event violating every Event invariant at once: negative score,
    identical participant ids; listed twice, so its id is duplicated. -/
def gBad : Game := ⟨7, 0, 3, 3, -5, 10⟩

def dfBad : List Game := [gBad, gBad]

/-- C3 counterexample.  dfBad violates all three claimed invariants (negative
    score, identical participant ids, duplicate event id), yet building the
    store succeeds: prepare_game_dataframe returns the frame instead of
    raising a ValidationError. -/
theorem prepare_accepts_invalid_events :
    gBad.home_team_score < 0
      ∧ gBad.home_team_id = gBad.visitor_team_id
      ∧ dfBad.map (fun g => g.id) = [7, 7]
      ∧ prepare_game_dataframe dfBad = Except.ok dfBad := by
  refine ⟨by decide, by decide, by decide, ?_⟩
  rfl

/-- C3 amended.  Building the store never raises: prepare_game_dataframe
    performs no validation, and for every input — including inputs with
    negative scores, identical participant ids or duplicate event ids — it
    returns ok with a date-sorted permutation of the input events. -/
theorem prepare_never_raises_and_sorts (games : List Game) :
    ∃ l, prepare_game_dataframe games = Except.ok l
      ∧ SortedByDate l ∧ l.Perm games :=
  ⟨sortAscByDate games, rfl, List.sorted_insertionSort dateLe games,
    List.perm_insertionSort dateLe games⟩

instance (df : List Game) : Decidable (SortedByDate df) :=
  inferInstanceAs (Decidable (List.Sorted dateLe df))

theorem tailPd_nil (n : ℕ) : tailPd n ([] : List Game) = [] := by
  simp [tailPd]

theorem slicePy_nil (n : ℕ) : slicePy n ([] : List Game) = [] := by
  unfold slicePy
  split <;> simp

/- ============ C4: form aggregator postcondition ============ -/

/-- C4 counterexample.  With window_size = 0 the cached form aggregator does
    not restrict to the up-to-0 most recent prior events: on dfCold with
    cutoff day 5 it returns games_played = 1 (the Python [-0:] slice keeps
    the whole history), while the naive variant honours the empty window. -/
theorem form_cached_window_zero_games_played :
    (calculate_team_form_cached dfCold 10 5 (build_team_games_cache dfCold) 0).games_played = 1
      ∧ (calculate_team_form dfCold 10 5 0).games_played = 0 := by
  constructor <;> rfl

/-- C4 amended.  Both form variants satisfy the spec postcondition record
    (strict win test, win_pct = wins / games_played, side-attributed score
    means, differential of the means, all-zero record with no error on an
    empty window) over their actual window: the naive variant uses the
    up-to-window_size most recent prior events for every window_size, and the
    cached variant does so for window_size of at least 1, while with
    window_size = 0 its window is the entire prior history (Python [-0:]
    slice); with zero prior events both return the all-zero record. -/
theorem form_postcondition_spec (df : List Game) (t : ℕ) (d : ℤ) (n : ℕ) :
    calculate_team_form df t d n = formStatsSpec t (tailPd n (teamGames df t d))
      ∧ calculate_team_form_cached df t d (build_team_games_cache df) n
          = formStatsSpec t (slicePy n (teamGames df t d))
      ∧ (teamGames df t d = [] →
          calculate_team_form df t d n = zeroForm
            ∧ calculate_team_form_cached df t d (build_team_games_cache df) n = zeroForm) := by
  refine ⟨form_naive_eq df t d n, form_cached_eq df t d n, ?_⟩
  intro hnil
  rw [form_naive_eq df t d n, form_cached_eq df t d n, hnil, tailPd_nil, slicePy_nil]
  exact ⟨rfl, rfl⟩

/-- C4 witness: the postcondition theorem evaluated on a cold-start team. -/
theorem form_postcondition_spec_witness :
    teamGames dfCold 99 5 = []
      ∧ calculate_team_form dfCold 99 5 10 = zeroForm
      ∧ calculate_team_form_cached dfCold 99 5 (build_team_games_cache dfCold) 10 = zeroForm :=
  ⟨by decide, ((form_postcondition_spec dfCold 99 5 10).2.2 (by decide)).1,
    ((form_postcondition_spec dfCold 99 5 10).2.2 (by decide)).2⟩

/- ============ C5: streak aggregator ============ -/

/-- The five-game history of the spec test: team 1 outcomes W, W, W, L, W on
    days 1 to 5 (most recent last). -/
def dfStreak : List Game :=
  [⟨1, 1, 1, 2, 100, 90⟩, ⟨2, 2, 1, 2, 100, 90⟩, ⟨3, 3, 1, 2, 100, 90⟩,
    ⟨4, 4, 1, 2, 80, 90⟩, ⟨5, 5, 1, 2, 100, 90⟩]

/-- C5.  On a date-sorted frame both streak variants walk the participant
    events before the cutoff in descending time order and return the signed
    length of the run of the most recent outcome (streakSpec); on the
    history [W, W, W, L, W] the cutoff after the 5th event gives +1, after
    the 3rd gives +3, and after the 4th gives -1, in both variants. -/
theorem streak_algorithm_spec :
    (∀ (df : List Game) (t : ℕ) (d : ℤ), SortedByDate df →
      calculate_win_streak df t d
          = streakSpec (((teamGames df t d).reverse).map (wonBy t))
        ∧ calculate_win_streak_cached df t d (build_team_games_cache df)
          = streakSpec (((teamGames df t d).reverse).map (wonBy t)))
    ∧ calculate_win_streak dfStreak 1 6 = 1
    ∧ calculate_win_streak dfStreak 1 4 = 3
    ∧ calculate_win_streak dfStreak 1 5 = -1
    ∧ calculate_win_streak_cached dfStreak 1 6 (build_team_games_cache dfStreak) = 1
    ∧ calculate_win_streak_cached dfStreak 1 4 (build_team_games_cache dfStreak) = 3
    ∧ calculate_win_streak_cached dfStreak 1 5 (build_team_games_cache dfStreak) = -1 := by
  refine ⟨?_, by decide, by decide, by decide, by decide, by decide, by decide⟩
  intro df t d hs
  constructor
  · rw [streak_naive_eq, sortDesc_of_sorted (sorted_teamGames df t d hs)]
  · exact streak_cached_eq df t d

/-- C5 witness: the sorted-frame hypothesis discharged on the concrete
    five-game history. -/
theorem streak_algorithm_spec_witness :
    SortedByDate dfStreak
      ∧ calculate_win_streak dfStreak 1 6
          = streakSpec (((teamGames dfStreak 1 6).reverse).map (wonBy 1)) :=
  ⟨by decide, (streak_algorithm_spec.1 dfStreak 1 6 (by decide)).1⟩

/- ============ C6: rest days and back-to-back ============ -/

/-- C6.  On a date-sorted frame: with at least one prior event both rest
    variants return the cutoff minus the date of the most recent prior event
    (in whole days, dates being day numbers); with no prior event both return
    the sentinel 999; and the back-to-back predicate holds exactly when the
    rest-days result equals 1. -/
theorem rest_days_spec (df : List Game) (t : ℕ) (d : ℤ) (hs : SortedByDate df) :
    ((teamGames df t d).isEmpty = false →
      calculate_rest_days df t d = d - maxDate (teamGames df t d)
        ∧ calculate_rest_days_cached df t d (build_team_games_cache df)
            = d - maxDate (teamGames df t d))
    ∧ ((teamGames df t d).isEmpty = true →
      calculate_rest_days df t d = 999
        ∧ calculate_rest_days_cached df t d (build_team_games_cache df) = 999)
    ∧ (is_back_to_back df t d = true ↔ calculate_rest_days df t d = 1) := by
  refine ⟨?_, ?_, ?_⟩
  · intro hne
    constructor
    · unfold calculate_rest_days
      dsimp only
      rw [hne]
      rfl
    · rw [rest_cached_eq, hne]
      simp only [Bool.false_eq_true, if_false]
      rw [← maxDate_sorted_getLast (teamGames df t d) (sorted_teamGames df t d hs)
        (by intro h; rw [h] at hne; simp at hne)]
  · intro hemp
    constructor
    · unfold calculate_rest_days
      dsimp only
      rw [hemp]
      rfl
    · rw [rest_cached_eq, hemp]
      rfl
  · unfold is_back_to_back
    simp [beq_iff_eq]

/-- C6 witness: concrete evaluations on the five-game history (cutoff day 6,
    previous game day 5, rest = 1 and a back-to-back). -/
theorem rest_days_spec_witness :
    SortedByDate dfStreak
      ∧ (teamGames dfStreak 1 6).isEmpty = false
      ∧ calculate_rest_days dfStreak 1 6 = 6 - maxDate (teamGames dfStreak 1 6) :=
  ⟨by decide, by decide, ((rest_days_spec dfStreak 1 6 (by decide)).1 (by decide)).1⟩

/- ============ C7: head-to-head symmetry ============ -/

theorem swap_pct (w1 len : ℕ) (hle : w1 ≤ len) (hpos : 0 < len) :
    ((len - w1 : ℕ) : ℚ) / len = 1 - (w1 : ℚ) / len := by
  have hne : (len : ℚ) ≠ 0 := Nat.cast_ne_zero.mpr (by omega)
  rw [Nat.cast_sub hle, sub_div, div_self hne]

theorem h2hOfWindow_sum (t1 : ℕ) (w : List Game) :
    (h2hOfWindow t1 w).team1_wins + (h2hOfWindow t1 w).team2_wins
      = (h2hOfWindow t1 w).h2h_games := by
  unfold h2hOfWindow
  by_cases hemp : w.isEmpty
  · simp [hemp]
  · simp only [hemp, if_false, Bool.false_eq_true]
    have hle := List.length_filter_le (team1Won t1) w
    omega

theorem h2hOfWindow_swap (t1 t2 : ℕ) (w : List Game)
    (hcomp : ∀ g ∈ w, team1Won t2 g = !(team1Won t1 g))
    (hpos : 0 < (h2hOfWindow t1 w).h2h_games) :
    (h2hOfWindow t2 w).team1_win_pct = 1 - (h2hOfWindow t1 w).team1_win_pct := by
  by_cases hemp : w.isEmpty
  · rw [h2hOfWindow] at hpos
    simp [hemp] at hpos
  · unfold h2hOfWindow
    simp only [hemp, if_false, Bool.false_eq_true]
    have hsum := length_filter_of_comp w (team1Won t1) (team1Won t2) hcomp
    have hle := List.length_filter_le (team1Won t1) w
    have hwlen : 0 < w.length := by
      cases w
      · simp at hemp
      · simp
    have h2 : (w.filter (team1Won t2)).length = w.length - (w.filter (team1Won t1)).length := by
      omega
    rw [h2, swap_pct _ _ hle hwlen]

theorem team1Won_comp_naive (df : List Game) (t1 t2 : ℕ) (d : ℤ) (n : ℕ) (hne : t1 ≠ t2) :
    ∀ g ∈ tailPd n (df.filter (h2hCond t1 t2 d)), team1Won t2 g = !(team1Won t1 g) := by
  intro g hg
  have hg2 := tailPd_subset n _ g hg
  have hcond := (List.mem_filter.mp hg2).2
  unfold h2hCond at hcond
  simp only [Bool.and_eq_true, Bool.or_eq_true, beq_iff_eq] at hcond
  rcases hcond.1 with ⟨h1, _⟩ | ⟨h1, _⟩
  · have hb1 : (g.home_team_id == t1) = true := by simp [h1]
    have hb2 : (g.home_team_id == t2) = false := by simp [h1]; exact hne
    simp [team1Won, hb1, hb2]
  · have hb1 : (g.home_team_id == t1) = false := by
      simp [h1]
      exact fun h => hne h.symm
    have hb2 : (g.home_team_id == t2) = true := by simp [h1]
    simp [team1Won, hb1, hb2]

theorem team1Won_comp_cached (df : List Game) (t1 t2 : ℕ) (d : ℤ) (n : ℕ) (hne : t1 ≠ t2) :
    ∀ g ∈ slicePy n (df.filter
        (fun g => involves g t1 && involves g t2 && decide (g.date < d))),
      team1Won t2 g = !(team1Won t1 g) := by
  intro g hg
  have hg2 := slicePy_subset n _ g hg
  have hcond := (List.mem_filter.mp hg2).2
  simp only [involves, Bool.and_eq_true, Bool.or_eq_true, beq_iff_eq] at hcond
  rcases hcond.1.1 with h1 | h1
  · have hb1 : (g.home_team_id == t1) = true := by simp [h1]
    have hb2 : (g.home_team_id == t2) = false := by simp [h1]; exact hne
    simp [team1Won, hb1, hb2]
  · rcases hcond.1.2 with h2 | h2
    · have hb1 : (g.home_team_id == t1) = false := by
        simp [h2]
        exact fun h => hne h.symm
      have hb2 : (g.home_team_id == t2) = true := by simp [h2]
      simp [team1Won, hb1, hb2]
    · exact absurd (h1.symm.trans h2) hne

theorem h2h_window_naive_symm (df : List Game) (t1 t2 : ℕ) (d : ℤ) :
    df.filter (h2hCond t2 t1 d) = df.filter (h2hCond t1 t2 d) := by
  apply List.filter_congr
  intro g _
  unfold h2hCond
  rw [Bool.or_comm]

theorem h2h_window_cached_symm (df : List Game) (t1 t2 : ℕ) (d : ℤ) :
    df.filter (fun g => involves g t2 && involves g t1 && decide (g.date < d))
      = df.filter (fun g => involves g t1 && involves g t2 && decide (g.date < d)) := by
  apply List.filter_congr
  intro g _
  cases h1 : involves g t1 <;> cases h2 : involves g t2 <;> simp [h1, h2]

/-- C7.  For every head-to-head query, in both variants, the two win counts
    sum to the number of returned games; and for two distinct team ids, when
    the query returns at least one game, swapping the ids yields a first-team
    win percentage equal to one minus the original one. -/
theorem h2h_symmetry (df : List Game) (t1 t2 : ℕ) (d : ℤ) (n : ℕ) :
    ((calculate_head_to_head df t1 t2 d n).team1_wins
        + (calculate_head_to_head df t1 t2 d n).team2_wins
        = (calculate_head_to_head df t1 t2 d n).h2h_games)
    ∧ ((calculate_head_to_head_cached df t1 t2 d (build_team_games_cache df) n).team1_wins
        + (calculate_head_to_head_cached df t1 t2 d (build_team_games_cache df) n).team2_wins
        = (calculate_head_to_head_cached df t1 t2 d (build_team_games_cache df) n).h2h_games)
    ∧ (t1 ≠ t2 → 0 < (calculate_head_to_head df t1 t2 d n).h2h_games →
        (calculate_head_to_head df t2 t1 d n).team1_win_pct
          = 1 - (calculate_head_to_head df t1 t2 d n).team1_win_pct)
    ∧ (t1 ≠ t2 →
        0 < (calculate_head_to_head_cached df t1 t2 d (build_team_games_cache df) n).h2h_games →
        (calculate_head_to_head_cached df t2 t1 d (build_team_games_cache df) n).team1_win_pct
          = 1 - (calculate_head_to_head_cached df t1 t2 d
              (build_team_games_cache df) n).team1_win_pct) := by
  refine ⟨?_, ?_, ?_, ?_⟩
  · rw [h2h_naive_eq]
    exact h2hOfWindow_sum t1 _
  · rw [h2h_cached_eq]
    exact h2hOfWindow_sum t1 _
  · intro hne hpos
    rw [h2h_naive_eq] at hpos ⊢
    rw [h2h_naive_eq, h2h_window_naive_symm]
    exact h2hOfWindow_swap t1 t2 _ (team1Won_comp_naive df t1 t2 d n hne) hpos
  · intro hne hpos
    rw [h2h_cached_eq] at hpos ⊢
    rw [h2h_cached_eq, h2h_window_cached_symm]
    exact h2hOfWindow_swap t1 t2 _ (team1Won_comp_cached df t1 t2 d n hne) hpos

/-- C7 witness: the symmetry theorem evaluated on the five-game history at
    cutoff day 6 between teams 1 and 2 (five shared games). -/
theorem h2h_symmetry_witness :
    (1 : ℕ) ≠ 2
      ∧ 0 < (calculate_head_to_head dfStreak 1 2 6 10).h2h_games
      ∧ (calculate_head_to_head dfStreak 2 1 6 10).team1_win_pct
          = 1 - (calculate_head_to_head dfStreak 1 2 6 10).team1_win_pct :=
  ⟨by decide, by decide,
    (h2h_symmetry dfStreak 1 2 6 10).2.2.1 (by decide) (by decide)⟩

/- ============ C8: window saturation and monotonicity ============ -/

theorem formStatsSpec_games (t : ℕ) (w : List Game) :
    (formStatsSpec t w).games_played = w.length := by
  unfold formStatsSpec
  by_cases h : w.isEmpty
  · rw [List.isEmpty_iff.mp h]
    simp [zeroForm]
  · simp only [h, if_false, Bool.false_eq_true]

/-- C8 counterexample.  On the five-game history with cutoff day 10 the
    cached form aggregator at window_size = 0 plays back all five games
    (games_played = 5 > 0), and raising the window from 0 to 1 drops
    games_played from 5 to 1: both saturation and monotonicity fail at 0. -/
theorem form_window_zero_not_monotone :
    (calculate_team_form_cached dfStreak 1 10 (build_team_games_cache dfStreak) 0).games_played = 5
      ∧ (calculate_team_form_cached dfStreak 1 10
          (build_team_games_cache dfStreak) 1).games_played = 1 := by
  exact ⟨rfl, rfl⟩

/-- C8 amended.  games_played is at most the window size and never decreases
    when the window grows by one, for the naive variant at every window size
    and for the cached variant at window sizes of at least 1 (the cached
    variant with window 0 replays the whole history, see the
    counterexample). -/
theorem form_window_saturation_monotone (df : List Game) (t : ℕ) (d : ℤ) (k : ℕ) :
    (calculate_team_form df t d k).games_played ≤ k
      ∧ (calculate_team_form df t d k).games_played
          ≤ (calculate_team_form df t d (k + 1)).games_played
      ∧ (1 ≤ k →
          (calculate_team_form_cached df t d (build_team_games_cache df) k).games_played ≤ k
            ∧ (calculate_team_form_cached df t d (build_team_games_cache df) k).games_played
              ≤ (calculate_team_form_cached df t d
                  (build_team_games_cache df) (k + 1)).games_played) := by
  refine ⟨?_, ?_, ?_⟩
  · rw [form_naive_eq, formStatsSpec_games, tailPd_length]
    omega
  · rw [form_naive_eq, form_naive_eq, formStatsSpec_games, formStatsSpec_games,
      tailPd_length, tailPd_length]
    omega
  · intro hk
    have hk0 : k ≠ 0 := by omega
    constructor
    · rw [form_cached_eq, formStatsSpec_games, slicePy_eq_tailPd hk0, tailPd_length]
      omega
    · rw [form_cached_eq, form_cached_eq, formStatsSpec_games, formStatsSpec_games,
        slicePy_eq_tailPd hk0, slicePy_eq_tailPd (Nat.succ_ne_zero k),
        tailPd_length, tailPd_length]
      omega

/-- C8 witness: the cached clause instantiated at window size 1. -/
theorem form_window_saturation_monotone_witness :
    (1 : ℕ) ≤ 1
      ∧ (calculate_team_form_cached dfStreak 1 10
          (build_team_games_cache dfStreak) 1).games_played ≤ 1 :=
  ⟨by decide, ((form_window_saturation_monotone dfStreak 1 10 1).2.2 (by decide)).1⟩

/- ============ C9: failure isolation during assembly ============ -/

/-- C9.  A failure of the per-event body on one event never aborts assembly:
    every event whose body returns normally keeps its record in the output,
    whatever the body does on the other events; and cold-start conditions are
    represented as zero/sentinel values by the aggregators, never as
    failures. -/
theorem assembly_failure_isolation :
    (∀ (step : Game → Except String FeatureRow) (df : List Game) (g : Game) (r : FeatureRow),
        g ∈ df → step g = Except.ok r → r ∈ assemble_features step df)
    ∧ (∀ (df : List Game) (t : ℕ) (d : ℤ) (n : ℕ), teamGames df t d = [] →
        calculate_team_form_cached df t d (build_team_games_cache df) n = zeroForm
          ∧ calculate_rest_days_cached df t d (build_team_games_cache df) = 999
          ∧ calculate_win_streak_cached df t d (build_team_games_cache df) = 0)
    ∧ (∀ (df : List Game) (t1 t2 : ℕ) (d : ℤ) (n : ℕ),
        df.filter (fun g => involves g t1 && involves g t2 && decide (g.date < d)) = [] →
        calculate_head_to_head_cached df t1 t2 d (build_team_games_cache df) n
          = ⟨0, 0, 0, 0⟩) := by
  refine ⟨?_, ?_, ?_⟩
  · intro step df g r hmem hstep
    unfold assemble_features
    exact List.mem_filterMap.mpr ⟨g, hmem, by rw [hstep]; rfl⟩
  · intro df t d n hnil
    refine ⟨?_, ?_, ?_⟩
    · rw [form_cached_eq, hnil, slicePy_nil]
      rfl
    · rw [rest_cached_eq, hnil]
      rfl
    · rw [streak_cached_eq, hnil]
      rfl
  · intro df t1 t2 d n hnil
    rw [h2h_cached_eq, hnil, slicePy_nil]
    rfl

/-- A loop body that raises on the event with id 2 and returns normally on
    every other event. -/
def stepFail : Game → Except String FeatureRow := fun g =>
  if g.id == 2 then Except.error "boom"
  else Except.ok (game_feature_row dfStreak (build_team_games_cache dfStreak) g true)

/-- C9 witness: with a body that raises on the second event of the five-game
    history, the record of the first event is still produced. -/
theorem assembly_failure_isolation_witness :
    (⟨1, 1, 1, 2, 100, 90⟩ : Game) ∈ dfStreak
      ∧ stepFail ⟨1, 1, 1, 2, 100, 90⟩
          = Except.ok (game_feature_row dfStreak (build_team_games_cache dfStreak)
              ⟨1, 1, 1, 2, 100, 90⟩ true)
      ∧ game_feature_row dfStreak (build_team_games_cache dfStreak)
            ⟨1, 1, 1, 2, 100, 90⟩ true
          ∈ assemble_features stepFail dfStreak :=
  ⟨by decide, rfl,
    assembly_failure_isolation.1 stepFail dfStreak ⟨1, 1, 1, 2, 100, 90⟩
      (game_feature_row dfStreak (build_team_games_cache dfStreak)
        ⟨1, 1, 1, 2, 100, 90⟩ true) (by decide) rfl⟩

/- ============ C10: naive vs cached variant equivalence ============ -/

theorem h2h_filters_agree (df : List Game) (t1 t2 : ℕ) (d : ℤ) (hne : t1 ≠ t2) :
    df.filter (h2hCond t1 t2 d)
      = df.filter (fun g => involves g t1 && involves g t2 && decide (g.date < d)) := by
  apply List.filter_congr
  intro g _
  by_cases H1 : g.home_team_id = t1 <;> by_cases H2 : g.home_team_id = t2
  · exact absurd (H1.symm.trans H2) hne
  · have b1 : (g.home_team_id == t1) = true := by simp [H1]
    have b2 : (g.home_team_id == t2) = false := by
      simp [beq_eq_false_iff_ne]
      exact H2
    by_cases V1 : g.visitor_team_id = t1 <;> by_cases V2 : g.visitor_team_id = t2
    · exact absurd (V1.symm.trans V2) hne
    · have v1 : (g.visitor_team_id == t1) = true := by simp [V1]
      have v2 : (g.visitor_team_id == t2) = false := by
        simp [beq_eq_false_iff_ne]
        exact V2
      simp [h2hCond, involves, b1, b2, v1, v2]
    · have v1 : (g.visitor_team_id == t1) = false := by
        simp [beq_eq_false_iff_ne]
        exact V1
      have v2 : (g.visitor_team_id == t2) = true := by simp [V2]
      simp [h2hCond, involves, b1, b2, v1, v2]
    · have v1 : (g.visitor_team_id == t1) = false := by
        simp [beq_eq_false_iff_ne]
        exact V1
      have v2 : (g.visitor_team_id == t2) = false := by
        simp [beq_eq_false_iff_ne]
        exact V2
      simp [h2hCond, involves, b1, b2, v1, v2]
  · have b1 : (g.home_team_id == t1) = false := by
      simp [beq_eq_false_iff_ne]
      exact H1
    have b2 : (g.home_team_id == t2) = true := by simp [H2]
    by_cases V1 : g.visitor_team_id = t1 <;> by_cases V2 : g.visitor_team_id = t2
    · exact absurd (V1.symm.trans V2) hne
    · have v1 : (g.visitor_team_id == t1) = true := by simp [V1]
      have v2 : (g.visitor_team_id == t2) = false := by
        simp [beq_eq_false_iff_ne]
        exact V2
      simp [h2hCond, involves, b1, b2, v1, v2]
    · have v1 : (g.visitor_team_id == t1) = false := by
        simp [beq_eq_false_iff_ne]
        exact V1
      have v2 : (g.visitor_team_id == t2) = true := by simp [V2]
      simp [h2hCond, involves, b1, b2, v1, v2]
    · have v1 : (g.visitor_team_id == t1) = false := by
        simp [beq_eq_false_iff_ne]
        exact V1
      have v2 : (g.visitor_team_id == t2) = false := by
        simp [beq_eq_false_iff_ne]
        exact V2
      simp [h2hCond, involves, b1, b2, v1, v2]
  · have b1 : (g.home_team_id == t1) = false := by
      simp [beq_eq_false_iff_ne]
      exact H1
    have b2 : (g.home_team_id == t2) = false := by
      simp [beq_eq_false_iff_ne]
      exact H2
    by_cases V1 : g.visitor_team_id = t1 <;> by_cases V2 : g.visitor_team_id = t2
    · exact absurd (V1.symm.trans V2) hne
    · have v1 : (g.visitor_team_id == t1) = true := by simp [V1]
      have v2 : (g.visitor_team_id == t2) = false := by
        simp [beq_eq_false_iff_ne]
        exact V2
      simp [h2hCond, involves, b1, b2, v1, v2]
    · have v1 : (g.visitor_team_id == t1) = false := by
        simp [beq_eq_false_iff_ne]
        exact V1
      have v2 : (g.visitor_team_id == t2) = true := by simp [V2]
      simp [h2hCond, involves, b1, b2, v1, v2]
    · have v1 : (g.visitor_team_id == t1) = false := by
        simp [beq_eq_false_iff_ne]
        exact V1
      have v2 : (g.visitor_team_id == t2) = false := by
        simp [beq_eq_false_iff_ne]
        exact V2
      simp [h2hCond, involves, b1, b2, v1, v2]

/-- C10 counterexample.  On the date-sorted five-game history the naive and
    cached variants disagree: team form with window size 0 (the naive tail(0)
    is empty, the cached [-0:] slice is the full history), and head-to-head
    with equal team ids (the naive mask matches no row, the cached index
    intersection returns every game of that team). -/
theorem naive_cached_divergence :
    calculate_team_form dfStreak 1 10 0
        ≠ calculate_team_form_cached dfStreak 1 10 (build_team_games_cache dfStreak) 0
      ∧ calculate_head_to_head dfStreak 1 1 10 10
        ≠ calculate_head_to_head_cached dfStreak 1 1 10 (build_team_games_cache dfStreak) 10 := by
  constructor <;> decide

/-- C10 amended.  On a frame sorted ascending by date, for window sizes of at
    least 1 and distinct team ids in the head-to-head query, every naive
    aggregator agrees with its cached counterpart built by
    build_team_games_cache on the same frame (the window-0 and equal-id
    queries of the counterexample are the only exceptions). -/
theorem naive_cached_equivalence (df : List Game) (t t1 t2 : ℕ) (d : ℤ) (n : ℕ)
    (hs : SortedByDate df) (hn : 1 ≤ n) (hne : t1 ≠ t2) :
    calculate_team_form df t d n
        = calculate_team_form_cached df t d (build_team_games_cache df) n
      ∧ calculate_head_to_head df t1 t2 d n
        = calculate_head_to_head_cached df t1 t2 d (build_team_games_cache df) n
      ∧ calculate_rest_days df t d
        = calculate_rest_days_cached df t d (build_team_games_cache df)
      ∧ calculate_win_streak df t d
        = calculate_win_streak_cached df t d (build_team_games_cache df)
      ∧ calculate_home_away_splits df t d n
        = calculate_home_away_splits_cached df t d (build_team_games_cache df) n := by
  have hn0 : n ≠ 0 := by omega
  refine ⟨?_, ?_, ?_, ?_, ?_⟩
  · rw [form_naive_eq, form_cached_eq, slicePy_eq_tailPd hn0]
  · rw [h2h_naive_eq, h2h_cached_eq, slicePy_eq_tailPd hn0, h2h_filters_agree df t1 t2 d hne]
  · rw [rest_cached_eq]
    unfold calculate_rest_days
    dsimp only
    by_cases hemp : (teamGames df t d).isEmpty
    · rw [hemp]
      simp
    · rw [Bool.not_eq_true] at hemp
      rw [hemp]
      simp only [Bool.false_eq_true, if_false]
      rw [maxDate_sorted_getLast (teamGames df t d) (sorted_teamGames df t d hs)
        (by intro h; rw [h] at hemp; simp at hemp)]
  · rw [streak_naive_eq, streak_cached_eq, sortDesc_of_sorted (sorted_teamGames df t d hs)]
  · rw [splits_naive_eq, splits_cached_eq, slicePy_eq_tailPd hn0, slicePy_eq_tailPd hn0]

/-- C10 witness: the equivalence instantiated on the five-game history with
    window 1 and the two distinct teams. -/
theorem naive_cached_equivalence_witness :
    SortedByDate dfStreak ∧ (1 : ℕ) ≤ 1 ∧ (1 : ℕ) ≠ 2
      ∧ calculate_rest_days dfStreak 1 10
          = calculate_rest_days_cached dfStreak 1 10 (build_team_games_cache dfStreak) :=
  ⟨by decide, by decide, by decide,
    (naive_cached_equivalence dfStreak 1 1 2 10 1 (by decide) (by decide) (by decide)).2.2.1⟩
